import Mathlib

/-!
Verification development for the CyberCode multi-agent orchestration core:
`BaseAgent` (metrics, request validation), `ChatAgent` (per-user profiles,
per-conversation context), and `OrchestratorService` (workflow
classification, the four workflow execution strategies, conversation
history).  JavaScript sources are shallow-embedded: per-call mutable state
becomes explicit state passing, `async` failure becomes `Except`, JS `Map`
becomes an association list, and the model-provider layer becomes an
oracle function parameter.
-/

namespace CyberCode

/-! ## JavaScript string primitives

`includes` mirrors `String.prototype.includes` (substring test),
`toLowerStr` mirrors `String.prototype.toLowerCase` (per-character
lowering; the sources only ever compare ASCII keywords), and `jsOr`
mirrors the JS `a || b` idiom on strings, where both `undefined`/`null`
and the empty string are falsy. -/

/-- Does the needle occur at the very start of the haystack? -/
def matchHere : List Char → List Char → Bool
  | [], _ => true
  | _ :: _, [] => false
  | a :: as, b :: bs => a == b && matchHere as bs

/-- Does the needle occur anywhere in the haystack? -/
def hasSub (needle : List Char) : List Char → Bool
  | [] => needle.isEmpty
  | b :: bs => matchHere needle (b :: bs) || hasSub needle bs

/-- JS `haystack.includes(needle)`. -/
def includes (haystack needle : String) : Bool :=
  hasSub needle.data haystack.data

/-- JS `s.toLowerCase()` (ASCII-faithful). -/
def toLowerStr (s : String) : String :=
  String.mk (s.data.map Char.toLower)

/-- JS `a || b` where `a` is a possibly-absent string:
absent and empty strings are falsy. -/
def jsOr (a : Option String) (b : String) : String :=
  match a with
  | none => b
  | some s => if s.isEmpty then b else s

/-- JS `array.slice(-n)`: the last `n` elements (the whole list when it is
shorter than `n`). -/
def lastN {α : Type} (n : Nat) (l : List α) : List α :=
  l.drop (l.length - n)

/-- First-occurrence deduplication, mirroring `[...new Set(l)]` in JS
(a JS `Set` keeps insertion order and drops later duplicates). -/
def dedupFirst (l : List String) : List String :=
  l.foldl (fun acc x => if acc.contains x then acc else acc ++ [x]) []

/-! ## Association-list maps

The sources use JS `Map` objects (`this.userProfiles`,
`this.conversationContext`, `this.conversations`).  We embed them as
association lists with get/set operations. -/

/-- JS `map.get(k)`. -/
def mGet {K V : Type} [DecidableEq K] : List (K × V) → K → Option V
  | [], _ => none
  | (k2, v) :: rest, k => if k2 = k then some v else mGet rest k

/-- JS `map.set(k, v)`. -/
def mSet {K V : Type} [DecidableEq K] : List (K × V) → K → V → List (K × V)
  | [], k, v => [(k, v)]
  | (k2, v2) :: rest, k, v =>
    if k2 = k then (k2, v) :: rest else (k2, v2) :: mSet rest k v

theorem mGet_mSet_same {K V : Type} [DecidableEq K]
    (m : List (K × V)) (k : K) (v : V) : mGet (mSet m k v) k = some v := by
  induction m with
  | nil => simp [mGet, mSet]
  | cons hd tl ih =>
    obtain ⟨k2, v2⟩ := hd
    by_cases h : k2 = k <;> simp [mGet, mSet, h, ih]

theorem mGet_mSet_other {K V : Type} [DecidableEq K]
    (m : List (K × V)) (k k2 : K) (v : V) (hne : k2 ≠ k) :
    mGet (mSet m k v) k2 = mGet m k2 := by
  induction m with
  | nil => simp [mGet, mSet, Ne.symm hne]
  | cons hd tl ih =>
    obtain ⟨k3, v3⟩ := hd
    by_cases h3 : k3 = k
    · subst h3
      simp [mGet, mSet, Ne.symm hne]
    · by_cases h4 : k3 = k2
      · subst h4
        simp [mGet, mSet, h3]
      · simp [mGet, mSet, h3, h4, ih]

/-- Every value reachable by `mGet` after an `mSet` is either the value
just written or a value that was reachable before. -/
theorem mGet_mSet_cases {K V : Type} [DecidableEq K]
    (m : List (K × V)) (k k2 : K) (v v2 : V)
    (h : mGet (mSet m k v) k2 = some v2) :
    v2 = v ∨ mGet m k2 = some v2 := by
  by_cases hk : k2 = k
  · subst hk
    rw [mGet_mSet_same] at h
    exact Or.inl (Option.some.inj h).symm
  · rw [mGet_mSet_other m k k2 v hk] at h
    exact Or.inr h

/-! ## BaseAgent metrics (src/unnamed/part_003, `BaseAgent`)

The constructor initialises all counters to zero; `updateMetrics`
increments the counters and recomputes the running average;
`getMetrics` adds a derived `successRate` field (its wall-clock
`uptime` field is elided).  JS numbers are embedded as `Nat` counters
and exact rationals for times. -/

structure AgentMetrics where
  totalRequests : Nat
  successfulRequests : Nat
  failedRequests : Nat
  averageResponseTime : ℚ
  totalResponseTime : ℚ
  deriving Repr, DecidableEq

/-- The metrics object built in the `BaseAgent` constructor. -/
def emptyMetrics : AgentMetrics :=
  { totalRequests := 0
    successfulRequests := 0
    failedRequests := 0
    averageResponseTime := 0
    totalResponseTime := 0 }

/-- Embeds `BaseAgent.updateMetrics(processingTime, success)`. -/
def updateMetrics (m : AgentMetrics) (processingTime : ℚ) (success : Bool) :
    AgentMetrics :=
  let total := m.totalRequests + 1
  let totalRT := m.totalResponseTime + processingTime
  { totalRequests := total
    totalResponseTime := totalRT
    averageResponseTime := totalRT / (total : ℚ)
    successfulRequests :=
      if success then m.successfulRequests + 1 else m.successfulRequests
    failedRequests :=
      if success then m.failedRequests else m.failedRequests + 1 }

/-- The `successRate` field computed by `BaseAgent.getMetrics`. -/
def successRate (m : AgentMetrics) : ℚ :=
  if 0 < m.totalRequests then
    (m.successfulRequests : ℚ) / (m.totalRequests : ℚ)
  else 0

/-! ## ChatAgent state (src/unnamed/part_012, `ChatAgent`)

The chat agent owns two private JS `Map`s: `userProfiles` (keyed by
user id) and `conversationContext` (keyed by conversation id), plus the
inherited `BaseAgent` metrics.  Timestamps stored beside the data
(`toISOString()` fields) are wall-clock values and are elided; only the
payloads the spec claims speak about are kept. -/

inductive Expertise
  | beginner
  | intermediate
  | expert
  deriving Repr, DecidableEq

/-- Numeric level of an expertise value, to state monotonicity. -/
def Expertise.rank : Expertise → Nat
  | .beginner => 0
  | .intermediate => 1
  | .expert => 2

/-- The two-branch advance in `ChatAgent.updateUserProfile`:
`beginner` becomes `intermediate`, else `intermediate` becomes `expert`,
and `expert` is left unchanged. -/
def advanceExpertise : Expertise → Expertise
  | .beginner => .intermediate
  | .intermediate => .expert
  | .expert => .expert

/-- A per-user profile (the `question` strings of `previousQuestions`
are kept; their timestamps are elided). -/
structure UserProfile where
  expertise : Expertise
  interests : List String
  previousQuestions : List String
  deriving Repr, DecidableEq

/-- The profile created lazily in `ChatAgent.buildContext` on first
request from a user id. -/
def freshUserProfile : UserProfile :=
  { expertise := .beginner, interests := [], previousQuestions := [] }

/-- Expertise signal keywords in `ChatAgent.updateUserProfile`. -/
def expertTerms : List String :=
  ["optimize", "performance", "architecture", "scalability"]

/-- Tech keywords scanned for `interests` in
`ChatAgent.updateUserProfile`. -/
def techKeywords : List String :=
  ["javascript", "python", "java", "react", "node.js", "docker",
   "kubernetes", "aws", "machine learning", "ai", "database"]

/-- One iteration of the `techKeywords.forEach` loop: push `tech` when
the input mentions it and it is not already an interest, then trim to
the last 10 (`slice(-10)`). -/
def addInterest (input : String) (interests : List String) (tech : String) :
    List String :=
  if includes (toLowerStr input) tech && !(interests.contains tech) then
    let i2 := interests ++ [tech]
    if i2.length > 10 then lastN 10 i2 else i2
  else interests

/-- Embeds `ChatAgent.updateUserProfile(profile, input, conversation)`:
advance expertise when an expert term occurs, accumulate bounded
interests, and record the question in the bounded
`previousQuestions` list (oldest evicted via `slice(-20)`). -/
def updateUserProfile (profile : UserProfile) (input : String) : UserProfile :=
  let e :=
    if expertTerms.any (fun t => includes (toLowerStr input) t) then
      advanceExpertise profile.expertise
    else profile.expertise
  let interests := techKeywords.foldl (addInterest input) profile.interests
  let pq := profile.previousQuestions ++ [input]
  let pq2 := if pq.length > 20 then lastN 20 pq else pq
  { expertise := e, interests := interests, previousQuestions := pq2 }

/-- Per-conversation context owned by the chat agent (task records keep
their `description`; timestamps and the constant `pending` status are
elided, as is the `lastUpdated` wall-clock field). -/
structure ConversationContext where
  topics : List String
  tasks : List String
  deriving Repr, DecidableEq

/-- The fresh context created by `updateConversationContext` for an
unknown conversation id. -/
def freshConversationContext : ConversationContext :=
  { topics := [], tasks := [] }

/-- Tech terms scanned by `ChatAgent.extractTopics`. -/
def topicTechTerms : List String :=
  ["javascript", "python", "react", "node.js", "database", "api",
   "frontend", "backend", "testing", "deployment", "security"]

/-- Embeds `ChatAgent.extractTopics(text)`: the tech terms mentioned in the
lower-cased text, in the fixed scan order. -/
def extractTopics (text : String) : List String :=
  topicTechTerms.filter (fun term => includes (toLowerStr text) term)

/-- The state change of `ChatAgent.updateConversationContext` once the
topic and task lists have been extracted: dedup-merge topics and trim
to the last 20, and append tasks (when any) trimmed to the last 10.
The regex-driven `extractTasks` is kept abstract (an oracle argument of
the agent model): every theorem below holds for all of its outputs. -/
def updateConversationContextCore (prev : ConversationContext)
    (topics tasks : List String) : ConversationContext :=
  { topics := lastN 20 (dedupFirst (prev.topics ++ topics))
    tasks :=
      if tasks.length > 0 then lastN 10 (prev.tasks ++ tasks) else prev.tasks }

/-- A conversation turn, as passed to agents (`type` is `user` or
`assistant`). -/
structure Turn where
  typ : String
  content : String
  workflow : Option String := none
  deriving Repr, DecidableEq

/-- A `ChatAgent.process` request.  `input` is `Option` because the JS
request object may lack the field entirely (destructuring then yields
`undefined`).  Of the request's context bag, the fields the agent's
state updates depend on are `userId` and `conversationId`; the purely
prompt-side fields (`projectInfo`, `currentFile`, ...) are elided. -/
structure ChatRequest where
  input : Option String
  conversation : List Turn := []
  userId : Option String := none
  conversationId : Option String := none

/-- Failure modes of the embedded chat agent.  `typeError` stands for
the untyped JS `TypeError` raised by reading `input.length` when the
field is absent; `invalidRequest` is the `Invalid request: ...` error
that `BaseAgent.validateRequest` would produce; `generationFailed`
carries a model-layer failure. -/
inductive ChatErr
  | typeError
  | invalidRequest (msg : String)
  | generationFailed (msg : String)
  deriving Repr, DecidableEq

/-- The successful result of `ChatAgent.process` (strategy flags and
per-call metadata that no claim constrains are elided; the pure
text post-processing pipeline — `cleanupResponse`,
`addContextualEnhancements`, `formatCodeBlocks` — performs no state
change and is likewise elided, the model text is returned as-is). -/
structure ChatResult where
  response : String
  deriving Repr, DecidableEq

/-- The mutable fields of a `ChatAgent` instance. -/
structure ChatAgentState where
  metrics : AgentMetrics
  userProfiles : List (String × UserProfile)
  conversationContext : List (String × ConversationContext)
  deriving Repr, DecidableEq

/-- A freshly constructed `ChatAgent`. -/
def freshChatAgent : ChatAgentState :=
  { metrics := emptyMetrics, userProfiles := [], conversationContext := [] }

namespace ChatAgent

/-- Embeds `ChatAgent.process(request, requestId)`.

Parameters: `gen` is the model-access oracle
(`this.modelManager.generate`, reduced to prompt text in / response
text or failure out) and `extractTasksO` abstracts the regex-based
`ChatAgent.extractTasks`.

Control flow mirrored from the source: when `input` is absent, the
first read of `input.length` throws a `TypeError` before anything else
happens (no state change).  Otherwise `buildContext` looks up or
creates the user profile and updates it (this write happens before the
model call, so it persists even when generation fails); the model call
failure is rethrown unchanged; on success `updateConversationContext`
updates the per-conversation record when the request carries a
conversation id.  No path touches `metrics`. -/
def process (gen : String → Except ChatErr String)
    (extractTasksO : String → List String)
    (st : ChatAgentState) (req : ChatRequest) :
    ChatAgentState × Except ChatErr ChatResult :=
  match req.input with
  | none => (st, Except.error ChatErr.typeError)
  | some input =>
    let userId := req.userId.getD "anonymous"
    let profile0 := (mGet st.userProfiles userId).getD freshUserProfile
    let profile1 := updateUserProfile profile0 input
    let st1 :=
      { st with userProfiles := mSet st.userProfiles userId profile1 }
    match gen input with
    | Except.error e => (st1, Except.error e)
    | Except.ok text =>
      let st2 :=
        match req.conversationId with
        | none => st1
        | some cid =>
          let prev :=
            (mGet st1.conversationContext cid).getD freshConversationContext
          let next :=
            updateConversationContextCore prev
              (extractTopics (input ++ " " ++ text)) (extractTasksO input)
          { st1 with
              conversationContext := mSet st1.conversationContext cid next }
      (st2, Except.ok { response := text })

/-- Fold a sequence of `process` calls over the agent state
(results discarded, as each call's state change is what the
invariants speak about). -/
def processAll (gen : String → Except ChatErr String)
    (extractTasksO : String → List String)
    (st : ChatAgentState) : List ChatRequest → ChatAgentState
  | [] => st
  | req :: rest =>
    processAll gen extractTasksO (process gen extractTasksO st req).1 rest

end ChatAgent

/-! ## Orchestrator (src/src/app/api/file-content/route.ts,
`OrchestratorService`)

The orchestrator composes three agents it treats as black boxes, so the
agents appear here as an oracle `AgentName → AgentRequest → Except OErr
AgentResult`.  Each workflow executor additionally returns the ordered
trace of agent invocations it attempted (ghost instrumentation: the JS
code performs these calls as effects).  Of each agent request the
orchestrator builds, we keep the fields it explicitly sets that the
claims can observe: the input string, the `role` tag and the
conversation history; the layered context bags (`chatContext`,
`codeContext`, `reasoningContext`, the three collaborative
perspectives) are pass-through payload for the oracle and are elided. -/

inductive Workflow
  | chatFirst
  | codeFirst
  | reasoningFirst
  | collaborative
  deriving Repr, DecidableEq

/-- The workflow's JS string name. -/
def workflowName : Workflow → String
  | .chatFirst => "chat-first"
  | .codeFirst => "code-first"
  | .reasoningFirst => "reasoning-first"
  | .collaborative => "collaborative"

/-- Code-indicator keywords of `OrchestratorService.determineWorkflow`. -/
def workflowCodeKeywords : List String :=
  ["code", "function", "class", "bug", "debug", "implement"]

/-- Reasoning-indicator keywords of
`OrchestratorService.determineWorkflow`. -/
def workflowReasoningKeywords : List String :=
  ["analyze", "explain", "why", "how", "compare", "evaluate"]

/-- Does the lower-cased input contain a code-indicator keyword? -/
def codeKeywordHit (lowerInput : String) : Bool :=
  workflowCodeKeywords.any (fun k => includes lowerInput k)

/-- Does the lower-cased input contain a reasoning-indicator keyword? -/
def reasoningKeywordHit (lowerInput : String) : Bool :=
  workflowReasoningKeywords.any (fun k => includes lowerInput k)

/-- Embeds `OrchestratorService.determineWorkflow(input, context)`: lower-case
the input, check the code keywords, then the reasoning keywords, else
default to chat-first.  (The `context` argument is unused in the
source.) -/
def determineWorkflow (input : String) : Workflow :=
  let lowerInput := toLowerStr input
  if codeKeywordHit lowerInput then .codeFirst
  else if reasoningKeywordHit lowerInput then .reasoningFirst
  else .chatFirst

inductive AgentName
  | chat
  | code
  | reasoning
  deriving Repr, DecidableEq

/-- A request the orchestrator hands to an agent. -/
structure AgentRequest where
  input : String
  conversation : List Turn := []
  role : Option String := none
  deriving Repr, DecidableEq

/-- An agent's result, as the orchestrator consumes it.  `metadata` is
the opaque per-agent metadata forwarded into the workflow result;
fields the executors branch on or splice into follow-up inputs are
`Option` when the JS object may lack them. -/
structure AgentResult where
  response : String
  metadata : String := ""
  needsCode : Bool := false
  codeRequest : Option String := none
  needsValidation : Bool := false
  code : Option String := none
  needsImplementation : Bool := false
  implementationRequest : Option String := none
  deriving Repr, DecidableEq

/-- Orchestrator-level failures: an agent call rejected, or the
`executeWorkflow` default branch threw `Unknown workflow`. -/
inductive OErr
  | agentError (msg : String)
  | unknownWorkflow (w : String)
  deriving Repr, DecidableEq

/-- The black-box behaviour of the three agents. -/
abbrev Oracle : Type := AgentName → AgentRequest → Except OErr AgentResult

/-- The trace of agent invocations a workflow execution attempted, in
call order (for the collaborative fan-out: in `Promise.all` argument
order — all three are started regardless of individual failures). -/
abbrev Trace : Type := List (AgentName × AgentRequest)

/-- The value a workflow executor resolves with: the combined response
plus `metadata.workflow`, `metadata.steps` and the per-agent metadata
map (as name/metadata pairs in steps order). -/
structure WorkflowOutcome where
  response : String
  workflow : String
  steps : List String
  agents : List (String × String)
  deriving Repr, DecidableEq

/-- Embeds `OrchestratorService.combineResponses(results)`: the plain ordered
join of the `response` fields with a blank-line separator. -/
def combineResponses (results : List AgentResult) : String :=
  String.intercalate "\n\n" (results.map (fun r => r.response))

/-- The request of the first (history-carrying) call of the three
sequential workflows. -/
def leadReq (input : String) (conv : List Turn) : AgentRequest :=
  { input := input, conversation := conv }

/-- Chat-first step 2: code request seeded from the chat result
(`chatResult.codeRequest || input`). -/
def codeAfterChatReq (input : String) (c : AgentResult) : AgentRequest :=
  { input := jsOr c.codeRequest input }

/-- Chat-first step 3: validation request (template-splices
`codeResult.code`, which renders as `undefined` when absent, exactly as
the JS template literal does). -/
def validateReq (co : AgentResult) : AgentRequest :=
  { input := "Validate this code: " ++ co.code.getD "undefined" }

/-- Code-first step 2 request
(`codeResult.code || codeResult.response`). -/
def analyzeReq (co : AgentResult) : AgentRequest :=
  { input := "Analyze and explain this code solution: "
      ++ jsOr co.code co.response }

/-- Code-first step 3 request. -/
def explainReq (r : AgentResult) : AgentRequest :=
  { input := "Explain this solution to the user: " ++ r.response }

/-- Reasoning-first step 2 request
(`reasoningResult.implementationRequest || input`). -/
def implReq (input : String) (r : AgentResult) : AgentRequest :=
  { input := jsOr r.implementationRequest input }

/-- Reasoning-first step 3 request (fixed instruction string). -/
def comprehensiveReq : AgentRequest :=
  { input :=
      "Provide a comprehensive response based on this analysis and implementation" }

/-- Reasoning-first two-step-path chat request. -/
def friendlyReq (r : AgentResult) : AgentRequest :=
  { input := "Make this analysis user-friendly: " ++ r.response }

/-- A role-tagged collaborative fan-out request. -/
def collabReq (input : String) (conv : List Turn) (r : String) :
    AgentRequest :=
  { input := input, conversation := conv, role := some r }

/-- The collaborative synthesis request (reasoning agent tagged
`synthesizer`). -/
def synthesisReq : AgentRequest :=
  { input := "Synthesize these three perspectives into a comprehensive response"
    role := some "synthesizer" }

/-- Embeds `OrchestratorService.executeChatFirstWorkflow`. -/
def executeChatFirstWorkflow (A : Oracle) (input : String)
    (conv : List Turn) : Trace × Except OErr WorkflowOutcome :=
  let req1 := leadReq input conv
  match A .chat req1 with
  | Except.error e => ([(.chat, req1)], Except.error e)
  | Except.ok chatResult =>
    if chatResult.needsCode then
      let req2 := codeAfterChatReq input chatResult
      match A .code req2 with
      | Except.error e => ([(.chat, req1), (.code, req2)], Except.error e)
      | Except.ok codeResult =>
        if codeResult.needsValidation then
          let req3 := validateReq codeResult
          match A .reasoning req3 with
          | Except.error e =>
            ([(.chat, req1), (.code, req2), (.reasoning, req3)],
             Except.error e)
          | Except.ok reasoningResult =>
            ([(.chat, req1), (.code, req2), (.reasoning, req3)],
             Except.ok
               { response :=
                   combineResponses [chatResult, codeResult, reasoningResult]
                 workflow := "chat-first"
                 steps := ["chat", "code", "reasoning"]
                 agents :=
                   [("chat", chatResult.metadata),
                    ("code", codeResult.metadata),
                    ("reasoning", reasoningResult.metadata)] })
        else
          ([(.chat, req1), (.code, req2)],
           Except.ok
             { response := combineResponses [chatResult, codeResult]
               workflow := "chat-first"
               steps := ["chat", "code"]
               agents :=
                 [("chat", chatResult.metadata),
                  ("code", codeResult.metadata)] })
    else
      ([(.chat, req1)],
       Except.ok
         { response := chatResult.response
           workflow := "chat-first"
           steps := ["chat"]
           agents := [("chat", chatResult.metadata)] })

/-- Embeds `OrchestratorService.executeCodeFirstWorkflow`: unconditionally
Code then Reasoning then Chat. -/
def executeCodeFirstWorkflow (A : Oracle) (input : String)
    (conv : List Turn) : Trace × Except OErr WorkflowOutcome :=
  let req1 := leadReq input conv
  match A .code req1 with
  | Except.error e => ([(.code, req1)], Except.error e)
  | Except.ok codeResult =>
    let req2 := analyzeReq codeResult
    match A .reasoning req2 with
    | Except.error e => ([(.code, req1), (.reasoning, req2)], Except.error e)
    | Except.ok reasoningResult =>
      let req3 := explainReq reasoningResult
      match A .chat req3 with
      | Except.error e =>
        ([(.code, req1), (.reasoning, req2), (.chat, req3)], Except.error e)
      | Except.ok chatResult =>
        ([(.code, req1), (.reasoning, req2), (.chat, req3)],
         Except.ok
           { response :=
               combineResponses [codeResult, reasoningResult, chatResult]
             workflow := "code-first"
             steps := ["code", "reasoning", "chat"]
             agents :=
               [("code", codeResult.metadata),
                ("reasoning", reasoningResult.metadata),
                ("chat", chatResult.metadata)] })

/-- Embeds `OrchestratorService.executeReasoningFirstWorkflow`. -/
def executeReasoningFirstWorkflow (A : Oracle) (input : String)
    (conv : List Turn) : Trace × Except OErr WorkflowOutcome :=
  let req1 := leadReq input conv
  match A .reasoning req1 with
  | Except.error e => ([(.reasoning, req1)], Except.error e)
  | Except.ok reasoningResult =>
    if reasoningResult.needsImplementation then
      let req2 := implReq input reasoningResult
      match A .code req2 with
      | Except.error e =>
        ([(.reasoning, req1), (.code, req2)], Except.error e)
      | Except.ok codeResult =>
        let req3 := comprehensiveReq
        match A .chat req3 with
        | Except.error e =>
          ([(.reasoning, req1), (.code, req2), (.chat, req3)],
           Except.error e)
        | Except.ok chatResult =>
          ([(.reasoning, req1), (.code, req2), (.chat, req3)],
           Except.ok
             { response :=
                 combineResponses [reasoningResult, codeResult, chatResult]
               workflow := "reasoning-first"
               steps := ["reasoning", "code", "chat"]
               agents :=
                 [("reasoning", reasoningResult.metadata),
                  ("code", codeResult.metadata),
                  ("chat", chatResult.metadata)] })
    else
      let req2 := friendlyReq reasoningResult
      match A .chat req2 with
      | Except.error e =>
        ([(.reasoning, req1), (.chat, req2)], Except.error e)
      | Except.ok chatResult =>
        ([(.reasoning, req1), (.chat, req2)],
         Except.ok
           { response := combineResponses [reasoningResult, chatResult]
             workflow := "reasoning-first"
             steps := ["reasoning", "chat"]
             agents :=
               [("reasoning", reasoningResult.metadata),
                ("chat", chatResult.metadata)] })

/-- The `Promise.all` rejection value: the error of the first rejected
of the three fan-out calls (argument order). -/
def firstError (a b c : Except OErr AgentResult) (dflt : OErr) : OErr :=
  match a with
  | Except.error e => e
  | Except.ok _ =>
    match b with
    | Except.error e => e
    | Except.ok _ =>
      match c with
      | Except.error e => e
      | Except.ok _ => dflt

/-- Embeds `OrchestratorService.executeCollaborativeWorkflow`: fan out the
three role-tagged calls (all are started, mirroring `Promise.all`),
and only when all three resolve run the reasoning agent once more as
synthesizer. -/
def executeCollaborativeWorkflow (A : Oracle) (input : String)
    (conv : List Turn) : Trace × Except OErr WorkflowOutcome :=
  let reqChat := collabReq input conv "interpreter"
  let reqCode := collabReq input conv "implementer"
  let reqReas := collabReq input conv "analyzer"
  let t3 : Trace :=
    [(.chat, reqChat), (.code, reqCode), (.reasoning, reqReas)]
  let rChat := A .chat reqChat
  let rCode := A .code reqCode
  let rReas := A .reasoning reqReas
  match rChat, rCode, rReas with
  | Except.ok chatResult, Except.ok codeResult, Except.ok reasoningResult =>
    match A .reasoning synthesisReq with
    | Except.error e => (t3 ++ [(.reasoning, synthesisReq)], Except.error e)
    | Except.ok synthesisResult =>
      (t3 ++ [(.reasoning, synthesisReq)],
       Except.ok
         { response := synthesisResult.response
           workflow := "collaborative"
           steps := ["parallel-processing", "synthesis"]
           agents :=
             [("chat", chatResult.metadata),
              ("code", codeResult.metadata),
              ("reasoning", reasoningResult.metadata),
              ("synthesis", synthesisResult.metadata)] })
  | a, b, c => (t3, Except.error (firstError a b c (OErr.agentError "")))

/-- Embeds `OrchestratorService.executeWorkflow`: dispatch on the workflow
string; an unrecognised selector throws `Unknown workflow`. -/
def executeWorkflow (A : Oracle) (workflow : String) (input : String)
    (conv : List Turn) : Trace × Except OErr WorkflowOutcome :=
  if workflow = "chat-first" then executeChatFirstWorkflow A input conv
  else if workflow = "code-first" then executeCodeFirstWorkflow A input conv
  else if workflow = "reasoning-first" then
    executeReasoningFirstWorkflow A input conv
  else if workflow = "collaborative" then
    executeCollaborativeWorkflow A input conv
  else ([], Except.error (OErr.unknownWorkflow workflow))

/-- The orchestrator's cross-request mutable state: the conversation
store.  Conversations are keyed by the caller-supplied conversation id,
which may be absent (`undefined` is a legal JS `Map` key), and carry
their ordered turn history.  The per-conversation context-manager bag
is not modelled (no claim about it here). -/
structure OrchestratorState where
  conversations : List (Option String × List Turn)
  deriving Repr, DecidableEq

/-- The turn history of a conversation id (empty when unknown). -/
def history (st : OrchestratorState) (cid : Option String) : List Turn :=
  (mGet st.conversations cid).getD []

/-- Modelled from the spec: `ConversationManager.createConversation`
(the class is not under src/, only its callers).  Spec §4.3/§3: a
conversation is "created on first reference to an unknown conversation
id" with an empty, append-only turn sequence. -/
def createConversation (st : OrchestratorState) (cid : Option String) :
    OrchestratorState :=
  { conversations := mSet st.conversations cid [] }

/-- Modelled from the spec: `ConversationManager.addMessage` (the class
is not under src/, only its callers).  Spec §4.3 `appendTurn(id,
turn)`: turn order is append-only, so the turn is appended at the end
of the identified conversation's history. -/
def addMessage (st : OrchestratorState) (cid : Option String) (t : Turn) :
    OrchestratorState :=
  { conversations := mSet st.conversations cid (history st cid ++ [t]) }

/-- The workflow actually executed for a `process` call:
the caller's selector unless it is `auto`, in which case the
classification heuristic picks one. -/
def actualWorkflowFor (workflow input : String) : String :=
  if workflow = "auto" then workflowName (determineWorkflow input)
  else workflow

/-- The value `processRequest` resolves with (its wall-clock
`timestamp` field is elided). -/
structure ProcessResult where
  response : String
  workflow : String
  metadata : WorkflowOutcome
  deriving Repr, DecidableEq

/-- The get-or-create step at the top of
`OrchestratorService.processRequest`: reuse the stored conversation, or
create (and store) a fresh one for an unknown id. -/
def getOrCreate (st : OrchestratorState) (cid : Option String) :
    OrchestratorState :=
  match mGet st.conversations cid with
  | some _ => st
  | none => createConversation st cid

/-- Embeds `OrchestratorService.processRequest(input, conversationId, context,
workflow, models, requestId)`: get or create the conversation, resolve
the workflow selector, run the chosen executor, and on success append
the user turn and the workflow-tagged assistant turn to the
conversation history.  On executor failure the error is rethrown: the
turns are never appended (the get-or-create write has already
happened, exactly as in the source).  The context-manager update is a
state we do not model; agent invocations are reported in the ghost
trace. -/
def processRequest (A : Oracle) (st : OrchestratorState) (input : String)
    (cid : Option String) (workflow : String) :
    OrchestratorState × Trace × Except OErr ProcessResult :=
  let conv := history st cid
  let st1 := getOrCreate st cid
  let actualWorkflow := actualWorkflowFor workflow input
  match executeWorkflow A actualWorkflow input conv with
  | (tr, Except.error e) => (st1, tr, Except.error e)
  | (tr, Except.ok result) =>
    let st2 :=
      addMessage st1 cid { typ := "user", content := input }
    let st3 :=
      addMessage st2 cid
        { typ := "assistant", content := result.response
          workflow := some actualWorkflow }
    (st3, tr,
     Except.ok
       { response := result.response, workflow := actualWorkflow
         metadata := result })

/-! ## Theorems -/

/-- C10: every `BaseAgent.updateMetrics` call preserves the metrics
invariants `totalRequests = successfulRequests + failedRequests` and
`averageResponseTime * totalRequests = totalResponseTime`, with
`totalRequests > 0` after the first update, so `getMetrics` reports a
`successRate` in `[0,1]`, and `0` whenever `totalRequests = 0`. -/
theorem updateMetrics_invariants (m : AgentMetrics) (t : ℚ) (s : Bool)
    (h : m.totalRequests = m.successfulRequests + m.failedRequests) :
    (updateMetrics m t s).totalRequests
        = (updateMetrics m t s).successfulRequests
          + (updateMetrics m t s).failedRequests
    ∧ 0 < (updateMetrics m t s).totalRequests
    ∧ (updateMetrics m t s).averageResponseTime
          * ((updateMetrics m t s).totalRequests : ℚ)
        = (updateMetrics m t s).totalResponseTime
    ∧ 0 ≤ successRate (updateMetrics m t s)
    ∧ successRate (updateMetrics m t s) ≤ 1
    ∧ (∀ m2 : AgentMetrics, m2.totalRequests = 0 → successRate m2 = 0) := by
  have htot : (updateMetrics m t s).totalRequests = m.totalRequests + 1 := by
    simp [updateMetrics]
  have hsucc : (updateMetrics m t s).successfulRequests
      = (if s then m.successfulRequests + 1 else m.successfulRequests) := by
    simp [updateMetrics]
  have hfail : (updateMetrics m t s).failedRequests
      = (if s then m.failedRequests else m.failedRequests + 1) := by
    simp [updateMetrics]
  have hsum : (updateMetrics m t s).totalRequests
      = (updateMetrics m t s).successfulRequests
        + (updateMetrics m t s).failedRequests := by
    rw [htot, hsucc, hfail]
    cases s <;> simp <;> omega
  have hpos : 0 < (updateMetrics m t s).totalRequests := by
    rw [htot]; omega
  have hsle : (updateMetrics m t s).successfulRequests
      ≤ (updateMetrics m t s).totalRequests := by
    omega
  refine ⟨hsum, hpos, ?_, ?_, ?_, ?_⟩
  · have hne : ((m.totalRequests + 1 : Nat) : ℚ) ≠ 0 := by
      exact_mod_cast Nat.succ_ne_zero m.totalRequests
    simp only [updateMetrics]
    exact div_mul_cancel₀ _ hne
  · rw [successRate, if_pos hpos]
    positivity
  · rw [successRate, if_pos hpos]
    rw [div_le_one (by exact_mod_cast hpos)]
    exact_mod_cast hsle
  · intro m2 h2
    rw [successRate, if_neg (by omega)]

/-- C10 witness: the invariants evaluated after one concrete update of
the freshly constructed metrics. -/
theorem updateMetrics_invariants_witness :
    (updateMetrics emptyMetrics 5 true).totalRequests
        = (updateMetrics emptyMetrics 5 true).successfulRequests
          + (updateMetrics emptyMetrics 5 true).failedRequests
    ∧ 0 < (updateMetrics emptyMetrics 5 true).totalRequests
    ∧ (updateMetrics emptyMetrics 5 true).averageResponseTime
          * ((updateMetrics emptyMetrics 5 true).totalRequests : ℚ)
        = (updateMetrics emptyMetrics 5 true).totalResponseTime
    ∧ 0 ≤ successRate (updateMetrics emptyMetrics 5 true)
    ∧ successRate (updateMetrics emptyMetrics 5 true) ≤ 1
    ∧ (∀ m2 : AgentMetrics, m2.totalRequests = 0 → successRate m2 = 0) :=
  updateMetrics_invariants emptyMetrics 5 true (by rfl)

/-- C3: auto workflow classification is a total function into the three
non-collaborative kinds, it never selects `collaborative`, it is
determined by the lower-cased input alone, and the code-indicator check
wins over the reasoning-indicator check (so an input containing both a
code keyword and a reasoning keyword classifies as `code-first`). -/
theorem determineWorkflow_spec :
    (∀ s : String, determineWorkflow s = Workflow.codeFirst
        ∨ determineWorkflow s = Workflow.reasoningFirst
        ∨ determineWorkflow s = Workflow.chatFirst)
    ∧ (∀ s : String, determineWorkflow s ≠ Workflow.collaborative)
    ∧ (∀ s t : String, toLowerStr s = toLowerStr t →
        determineWorkflow s = determineWorkflow t)
    ∧ (∀ s : String, codeKeywordHit (toLowerStr s) = true →
        reasoningKeywordHit (toLowerStr s) = true →
        determineWorkflow s = Workflow.codeFirst) := by
  have hcases : ∀ s : String, determineWorkflow s = Workflow.codeFirst
      ∨ determineWorkflow s = Workflow.reasoningFirst
      ∨ determineWorkflow s = Workflow.chatFirst := by
    intro s
    unfold determineWorkflow
    by_cases h1 : codeKeywordHit (toLowerStr s)
    · simp [h1]
    · by_cases h2 : reasoningKeywordHit (toLowerStr s) <;> simp [h1, h2]
  refine ⟨hcases, ?_, ?_, ?_⟩
  · intro s hcollab
    rcases hcases s with h | h | h <;> rw [h] at hcollab <;> exact
      Workflow.noConfusion hcollab
  · intro s t h
    unfold determineWorkflow
    rw [h]
  · intro s h1 _
    simp only [determineWorkflow]
    rw [h1]
    simp

/-- C3 witness: `"Explain this CODE"` contains both a code keyword and
a reasoning keyword and classifies as `code-first`. -/
theorem determineWorkflow_spec_witness :
    codeKeywordHit (toLowerStr "Explain this CODE") = true
    ∧ reasoningKeywordHit (toLowerStr "Explain this CODE") = true
    ∧ determineWorkflow "Explain this CODE" = Workflow.codeFirst := by
  refine ⟨by decide, by decide, ?_⟩
  exact determineWorkflow_spec.2.2.2 "Explain this CODE" (by decide)
    (by decide)

/-- C1 (code bug): `ChatAgent.process` performs no metrics update at
all — on every path (missing input, model failure, success) the
agent's `AgentMetrics` are returned unchanged, contradicting the
contract that they are updated exactly once per invocation.
`BaseAgent.updateMetrics` itself is correct but is never called from
`ChatAgent.process`. -/
theorem chatAgent_process_never_updates_metrics
    (gen : String → Except ChatErr String)
    (extractTasksO : String → List String)
    (st : ChatAgentState) (req : ChatRequest) :
    ((ChatAgent.process gen extractTasksO st req).1).metrics = st.metrics := by
  cases hin : req.input with
  | none => simp [ChatAgent.process, hin]
  | some input =>
    cases hg : gen input with
    | error e => simp [ChatAgent.process, hin, hg]
    | ok text =>
      cases hc : req.conversationId with
      | none => simp [ChatAgent.process, hin, hg, hc]
      | some cid => simp [ChatAgent.process, hin, hg, hc]

/-- C7 (code bug): a request with no `input` field makes
`ChatAgent.process` fail before any model call (the result is the same
for every model oracle `gen`, which is never consulted), but the error
is the untyped JS `TypeError` from reading `input.length` — not a typed
`InvalidRequest` (`BaseAgent.validateRequest` is never called) — and
the agent state, including the failure counter of its metrics, is
completely unchanged. -/
theorem chatAgent_process_missing_input
    (gen : String → Except ChatErr String)
    (extractTasksO : String → List String)
    (st : ChatAgentState) (conversation : List Turn)
    (uid cid : Option String) :
    ChatAgent.process gen extractTasksO st
        { input := none, conversation := conversation,
          userId := uid, conversationId := cid }
      = (st, Except.error ChatErr.typeError)
    ∧ ∀ msg : String, (ChatErr.typeError : ChatErr)
        ≠ ChatErr.invalidRequest msg := by
  constructor
  · rfl
  · intro msg hne
    exact ChatErr.noConfusion hne

/-- The expertise currently on record for a user id (a user without a
stored profile is at the `beginner` level the lazily-created profile
starts from). -/
def expertiseOf (st : ChatAgentState) (uid : String) : Expertise :=
  ((mGet st.userProfiles uid).getD freshUserProfile).expertise

theorem advanceExpertise_rank_le (e : Expertise) :
    e.rank ≤ (advanceExpertise e).rank := by
  cases e <;> simp [advanceExpertise, Expertise.rank]

theorem updateUserProfile_expertise_cases (p : UserProfile) (input : String) :
    (updateUserProfile p input).expertise
      = (if expertTerms.any (fun t => includes (toLowerStr input) t) then
          advanceExpertise p.expertise
        else p.expertise) := by
  simp [updateUserProfile]

theorem updateUserProfile_expertise_mono (p : UserProfile) (input : String) :
    p.expertise.rank ≤ (updateUserProfile p input).expertise.rank := by
  rw [updateUserProfile_expertise_cases]
  split
  · exact advanceExpertise_rank_le p.expertise
  · exact le_refl _

/-- The user-profile table after one `ChatAgent.process` call: at most
one entry changed, namely the request's user id, and its new value is
`updateUserProfile` of the looked-up (or fresh) profile.  Holds on
every path that gets past the `input` read. -/
theorem process_userProfiles_change
    (gen : String → Except ChatErr String)
    (extractTasksO : String → List String)
    (st : ChatAgentState) (req : ChatRequest) (input : String)
    (hin : req.input = some input) :
    (ChatAgent.process gen extractTasksO st req).1.userProfiles
      = mSet st.userProfiles (req.userId.getD "anonymous")
          (updateUserProfile
            ((mGet st.userProfiles (req.userId.getD "anonymous")).getD
              freshUserProfile) input) := by
  cases hg : gen input with
  | error e => simp [ChatAgent.process, hin, hg]
  | ok text =>
    cases hc : req.conversationId with
    | none => simp [ChatAgent.process, hin, hg, hc]
    | some cid => simp [ChatAgent.process, hin, hg, hc]

theorem process_expertise_mono
    (gen : String → Except ChatErr String)
    (extractTasksO : String → List String)
    (st : ChatAgentState) (req : ChatRequest) (uid : String) :
    (expertiseOf st uid).rank
      ≤ (expertiseOf (ChatAgent.process gen extractTasksO st req).1 uid).rank
    := by
  cases hin : req.input with
  | none =>
    simp [ChatAgent.process, hin]
  | some input =>
    simp only [expertiseOf]
    rw [process_userProfiles_change gen extractTasksO st req input hin]
    by_cases huid : uid = req.userId.getD "anonymous"
    · subst huid
      rw [mGet_mSet_same]
      simp only [Option.getD_some]
      exact updateUserProfile_expertise_mono _ input
    · rw [mGet_mSet_other _ _ _ _ huid]

/-- C8: for every user id, the recorded expertise level is
monotonically non-decreasing across any sequence of
`ChatAgent.process` calls; and it is advanced only by the expertise
signal keywords — a call whose input contains none of `expertTerms`
leaves every user's expertise exactly where it was. -/
theorem chatAgent_expertise_monotone :
    (∀ (gen : String → Except ChatErr String)
        (extractTasksO : String → List String)
        (st : ChatAgentState) (reqs : List ChatRequest) (uid : String),
      (expertiseOf st uid).rank
        ≤ (expertiseOf (ChatAgent.processAll gen extractTasksO st reqs)
            uid).rank)
    ∧ (∀ (gen : String → Except ChatErr String)
        (extractTasksO : String → List String)
        (st : ChatAgentState) (req : ChatRequest) (input : String)
        (uid : String),
      req.input = some input →
      expertTerms.any (fun t => includes (toLowerStr input) t) = false →
      expertiseOf (ChatAgent.process gen extractTasksO st req).1 uid
        = expertiseOf st uid) := by
  constructor
  · intro gen extractTasksO st reqs
    induction reqs generalizing st with
    | nil => intro uid; exact le_refl _
    | cons r rest ih =>
      intro uid
      exact le_trans (process_expertise_mono gen extractTasksO st r uid)
        (ih _ uid)
  · intro gen extractTasksO st req input uid hin hterm
    simp only [expertiseOf]
    rw [process_userProfiles_change gen extractTasksO st req input hin]
    by_cases huid : uid = req.userId.getD "anonymous"
    · subst huid
      rw [mGet_mSet_same]
      simp only [Option.getD_some]
      rw [updateUserProfile_expertise_cases, hterm]
      simp
    · rw [mGet_mSet_other _ _ _ _ huid]

/-- Concrete model oracle used by witnesses: always succeeds with the
text `ok`. -/
def okGen : String → Except ChatErr String := fun _ => Except.ok "ok"

/-- Concrete task-extraction oracle used by witnesses: finds no task. -/
def noTasks : String → List String := fun _ => []

/-- Concrete chat request used by witnesses. -/
def helloReq : ChatRequest := { input := some "hello" }

/-- C8 witness: a concrete call whose input has no expertise keyword
leaves the (fresh) anonymous user's expertise untouched, and a
concrete two-call sequence never lowers it. -/
theorem chatAgent_expertise_monotone_witness :
    expertiseOf (ChatAgent.process okGen noTasks freshChatAgent helloReq).1
        "anonymous"
      = expertiseOf freshChatAgent "anonymous"
    ∧ (expertiseOf freshChatAgent "anonymous").rank
        ≤ (expertiseOf
            (ChatAgent.processAll okGen noTasks freshChatAgent
              [helloReq, helloReq]) "anonymous").rank := by
  constructor
  · exact chatAgent_expertise_monotone.2 okGen noTasks freshChatAgent
      helloReq "hello" "anonymous" (by rfl) (by decide)
  · exact chatAgent_expertise_monotone.1 okGen noTasks freshChatAgent
      [helloReq, helloReq] "anonymous"

theorem lastN_length_le {α : Type} (n : Nat) (l : List α) :
    (lastN n l).length ≤ n := by
  simp only [lastN, List.length_drop]
  omega

/-- The bounds the spec states for a user profile. -/
def profileBounded (p : UserProfile) : Prop :=
  p.interests.length ≤ 10 ∧ p.previousQuestions.length ≤ 20

/-- The bounds the spec states for a per-conversation context. -/
def contextBounded (c : ConversationContext) : Prop :=
  c.topics.length ≤ 20 ∧ c.tasks.length ≤ 10

/-- The bounds hold for every record stored in the chat agent's two
maps. -/
def chatStateBounded (st : ChatAgentState) : Prop :=
  (∀ uid p, mGet st.userProfiles uid = some p → profileBounded p)
  ∧ (∀ cid c, mGet st.conversationContext cid = some c → contextBounded c)

theorem addInterest_length_le (input : String) (interests : List String)
    (tech : String) (h : interests.length ≤ 10) :
    (addInterest input interests tech).length ≤ 10 := by
  unfold addInterest
  split
  · dsimp only
    split
    · exact lastN_length_le 10 _
    · rename_i h2
      omega
  · exact h

theorem foldl_addInterest_length_le (input : String)
    (techs : List String) (interests : List String)
    (h : interests.length ≤ 10) :
    (techs.foldl (addInterest input) interests).length ≤ 10 := by
  induction techs generalizing interests with
  | nil => exact h
  | cons t rest ih =>
    exact ih _ (addInterest_length_le input interests t h)

theorem updateUserProfile_bounded (p : UserProfile) (input : String)
    (h : profileBounded p) : profileBounded (updateUserProfile p input) := by
  obtain ⟨h1, h2⟩ := h
  constructor
  · simp only [updateUserProfile]
    exact foldl_addInterest_length_le input techKeywords p.interests h1
  · simp only [updateUserProfile]
    split
    · exact lastN_length_le 20 _
    · rename_i h3
      simp only [List.length_append, List.length_singleton] at h3 ⊢
      omega

theorem updateConversationContextCore_bounded (c : ConversationContext)
    (topics tasks : List String) (h : contextBounded c) :
    contextBounded (updateConversationContextCore c topics tasks) := by
  constructor
  · exact lastN_length_le 20 _
  · simp only [updateConversationContextCore]
    split
    · exact lastN_length_le 10 _
    · exact h.2

theorem process_bounded
    (gen : String → Except ChatErr String)
    (extractTasksO : String → List String)
    (st : ChatAgentState) (req : ChatRequest)
    (h : chatStateBounded st) :
    chatStateBounded (ChatAgent.process gen extractTasksO st req).1 := by
  obtain ⟨hp, hc⟩ := h
  have hfresh : profileBounded freshUserProfile := by
    constructor <;> simp [freshUserProfile]
  have hfreshc : contextBounded freshConversationContext := by
    constructor <;> simp [freshConversationContext]
  cases hin : req.input with
  | none =>
    simp only [ChatAgent.process, hin]
    exact ⟨hp, hc⟩
  | some input =>
    have hprofiles : ∀ uid p,
        mGet (ChatAgent.process gen extractTasksO st req).1.userProfiles uid
          = some p → profileBounded p := by
      rw [process_userProfiles_change gen extractTasksO st req input hin]
      intro uid p hget
      rcases mGet_mSet_cases _ _ _ _ _ hget with heq | hold
      · subst heq
        apply updateUserProfile_bounded
        cases hstored : mGet st.userProfiles (req.userId.getD "anonymous")
          with
        | none => simpa [hstored] using hfresh
        | some p0 => simpa [hstored] using hp _ p0 hstored
      · exact hp _ p hold
    have hcontexts : ∀ cid c,
        mGet (ChatAgent.process gen extractTasksO st req).1.conversationContext
          cid = some c → contextBounded c := by
      cases hg : gen input with
      | error e =>
        simp only [ChatAgent.process, hin, hg]
        exact hc
      | ok text =>
        cases hcid : req.conversationId with
        | none =>
          simp only [ChatAgent.process, hin, hg, hcid]
          exact hc
        | some cid0 =>
          simp only [ChatAgent.process, hin, hg, hcid]
          intro cid c hget
          rcases mGet_mSet_cases _ _ _ _ _ hget with heq | hold
          · subst heq
            apply updateConversationContextCore_bounded
            cases hstored : mGet st.conversationContext cid0 with
            | none => simpa [hstored] using hfreshc
            | some c0 => simpa [hstored] using hc _ c0 hstored
          · exact hc _ c hold
    exact ⟨hprofiles, hcontexts⟩

/-- C9: the bounds `topics ≤ 20`, `tasks ≤ 10`, `previousQuestions ≤
20` and `interests ≤ 10` hold for every stored record after any
sequence of `ChatAgent.process` calls (in particular after 25 user
turns), provided they held before — every update preserves them, for
every model oracle and every behaviour of the task extractor. -/
theorem chatAgent_bounds_preserved
    (gen : String → Except ChatErr String)
    (extractTasksO : String → List String)
    (st : ChatAgentState) (reqs : List ChatRequest)
    (h : chatStateBounded st) :
    chatStateBounded (ChatAgent.processAll gen extractTasksO st reqs) := by
  induction reqs generalizing st with
  | nil => exact h
  | cons r rest ih =>
    exact ih _ (process_bounded gen extractTasksO st r h)

/-- C9 witness: the bounds hold concretely after two calls on a fresh
agent (the fresh agent's empty maps satisfy them vacuously). -/
theorem chatAgent_bounds_preserved_witness :
    chatStateBounded
      (ChatAgent.processAll okGen noTasks freshChatAgent
        [helloReq, helloReq]) := by
  apply chatAgent_bounds_preserved okGen noTasks freshChatAgent
    [helloReq, helloReq]
  constructor
  · intro uid p hget
    simp [freshChatAgent, mGet] at hget
  · intro cid c hget
    simp [freshChatAgent, mGet] at hget

theorem history_getOrCreate (st : OrchestratorState) (cid k : Option String) :
    history (getOrCreate st cid) k = history st k := by
  unfold getOrCreate
  cases hget : mGet st.conversations cid with
  | some conv => rfl
  | none =>
    unfold history createConversation
    by_cases hk : k = cid
    · subst hk
      rw [mGet_mSet_same, hget]
      rfl
    · rw [mGet_mSet_other _ _ _ _ hk]

theorem history_addMessage_append (st : OrchestratorState)
    (cid : Option String) (t : Turn) :
    history (addMessage st cid t) cid = history st cid ++ [t] := by
  unfold history addMessage
  rw [mGet_mSet_same]
  rfl

theorem history_addMessage_other (st : OrchestratorState)
    (cid k : Option String) (t : Turn) (h : k ≠ cid) :
    history (addMessage st cid t) k = history st k := by
  unfold history addMessage
  rw [mGet_mSet_other _ _ _ _ h]

/-- C2: a `processRequest` call whose workflow execution succeeds
appends exactly two turns to its conversation — first the user turn
carrying the original input, then the assistant turn carrying the
combined response tagged with the executed workflow — touches no other
conversation, and resolves with the workflow result. -/
theorem processRequest_appends_two_turns
    (A : Oracle) (st : OrchestratorState) (input : String)
    (cid : Option String) (wf : String) (tr : Trace) (out : WorkflowOutcome)
    (hsucc : executeWorkflow A (actualWorkflowFor wf input) input
        (history st cid) = (tr, Except.ok out)) :
    history (processRequest A st input cid wf).1 cid
      = history st cid
        ++ [{ typ := "user", content := input, workflow := none },
            { typ := "assistant", content := out.response,
              workflow := some (actualWorkflowFor wf input) }]
    ∧ (∀ k, k ≠ cid → history (processRequest A st input cid wf).1 k
        = history st k)
    ∧ (processRequest A st input cid wf).2.2
        = Except.ok
            { response := out.response,
              workflow := actualWorkflowFor wf input, metadata := out } := by
  simp only [processRequest]
  rw [hsucc]
  refine ⟨?_, ?_, rfl⟩
  · rw [history_addMessage_append, history_addMessage_append,
      history_getOrCreate, List.append_assoc]
    rfl
  · intro k hk
    rw [history_addMessage_other _ _ _ _ hk,
      history_addMessage_other _ _ _ _ hk, history_getOrCreate]

/-- Concrete agent oracle used by witnesses: every agent call succeeds
with the response `ok` and no delegation flags. -/
def okAgents : Oracle := fun _ _ => Except.ok { response := "ok" }

/-- Concrete orchestrator state used by witnesses: no conversations. -/
def emptyOrchestrator : OrchestratorState := { conversations := [] }

/-- C2 witness: a concrete successful chat-first call on an empty store
leaves exactly the user and assistant turns in the conversation. -/
theorem processRequest_appends_two_turns_witness :
    history
        (processRequest okAgents emptyOrchestrator "hi" (some "c1")
          "chat-first").1 (some "c1")
      = [{ typ := "user", content := "hi", workflow := none },
         { typ := "assistant", content := "ok",
           workflow := some "chat-first" }] := by
  have h := processRequest_appends_two_turns okAgents emptyOrchestrator "hi"
    (some "c1") "chat-first"
    [(AgentName.chat, leadReq "hi" [])]
    { response := "ok", workflow := "chat-first", steps := ["chat"],
      agents := [("chat", "")] }
    (by rfl)
  simpa using h.1

theorem executeWorkflow_collaborative (A : Oracle) (input : String)
    (conv : List Turn) :
    executeWorkflow A "collaborative" input conv
      = executeCollaborativeWorkflow A input conv := rfl

/-- If any of the three collaborative fan-out calls fails, the
collaborative executor fails with a trace containing exactly the three
fan-out invocations — in particular no synthesizer invocation. -/
theorem collab_fan_out_failure (A : Oracle) (input : String)
    (conv : List Turn)
    (h : (∃ e, A .chat (collabReq input conv "interpreter")
            = Except.error e)
       ∨ (∃ e, A .code (collabReq input conv "implementer")
            = Except.error e)
       ∨ (∃ e, A .reasoning (collabReq input conv "analyzer")
            = Except.error e)) :
    ∃ e, executeCollaborativeWorkflow A input conv
      = ([(.chat, collabReq input conv "interpreter"),
          (.code, collabReq input conv "implementer"),
          (.reasoning, collabReq input conv "analyzer")],
         Except.error e) := by
  cases hc : A .chat (collabReq input conv "interpreter") with
  | error e =>
    exact ⟨e, by simp [executeCollaborativeWorkflow, hc, firstError]⟩
  | ok c =>
    cases hco : A .code (collabReq input conv "implementer") with
    | error e =>
      exact ⟨e, by simp [executeCollaborativeWorkflow, hc, hco, firstError]⟩
    | ok co =>
      cases hr : A .reasoning (collabReq input conv "analyzer") with
      | error e =>
        exact ⟨e,
          by simp [executeCollaborativeWorkflow, hc, hco, hr, firstError]⟩
      | ok r =>
        exfalso
        rcases h with ⟨e, he⟩ | ⟨e, he⟩ | ⟨e, he⟩
        · rw [hc] at he
          exact Except.noConfusion he
        · rw [hco] at he
          exact Except.noConfusion he
        · rw [hr] at he
          exact Except.noConfusion he

/-- C4: in the collaborative workflow, if any one of the three parallel
agent calls fails, the whole `processRequest` call fails, the ghost
trace shows exactly the three fan-out invocations (so the synthesis
call — the only one tagged `role=synthesizer` — is never made), and no
conversation's history gains any turn. -/
theorem collaborative_failure_fail_fast
    (A : Oracle) (st : OrchestratorState) (input : String)
    (cid : Option String)
    (h : (∃ e, A .chat (collabReq input (history st cid) "interpreter")
            = Except.error e)
       ∨ (∃ e, A .code (collabReq input (history st cid) "implementer")
            = Except.error e)
       ∨ (∃ e, A .reasoning (collabReq input (history st cid) "analyzer")
            = Except.error e)) :
    (∃ e, (processRequest A st input cid "collaborative").2.2
        = Except.error e)
    ∧ (∀ k, history (processRequest A st input cid "collaborative").1 k
        = history st k)
    ∧ (processRequest A st input cid "collaborative").2.1
        = [(.chat, collabReq input (history st cid) "interpreter"),
           (.code, collabReq input (history st cid) "implementer"),
           (.reasoning, collabReq input (history st cid) "analyzer")]
    ∧ (∀ c ∈ (processRequest A st input cid "collaborative").2.1,
        c.2.role ≠ some "synthesizer") := by
  obtain ⟨e, hex⟩ := collab_fan_out_failure A input (history st cid) h
  have hw : executeWorkflow A (actualWorkflowFor "collaborative" input)
      input (history st cid)
      = ([(.chat, collabReq input (history st cid) "interpreter"),
          (.code, collabReq input (history st cid) "implementer"),
          (.reasoning, collabReq input (history st cid) "analyzer")],
         Except.error e) := by
    rw [show actualWorkflowFor "collaborative" input = "collaborative" from
      rfl]
    rw [executeWorkflow_collaborative]
    exact hex
  simp only [processRequest]
  rw [hw]
  refine ⟨⟨e, rfl⟩, ?_, rfl, ?_⟩
  · intro k
    exact history_getOrCreate st cid k
  · intro c hc
    simp only [List.mem_cons, List.not_mem_nil, or_false] at hc
    rcases hc with hc | hc | hc <;> subst hc <;> simp [collabReq]

/-- Concrete oracle used by the C4 witness: the chat agent rejects,
the other agents succeed. -/
def chatFailsAgents : Oracle := fun a _ =>
  match a with
  | .chat => Except.error (OErr.agentError "boom")
  | _ => Except.ok { response := "ok" }

/-- C4 witness: a concrete collaborative call with a failing chat agent
fails, appends nothing, and never invokes the synthesizer. -/
theorem collaborative_failure_fail_fast_witness :
    (∃ e, (processRequest chatFailsAgents emptyOrchestrator "hi"
        (some "c1") "collaborative").2.2 = Except.error e)
    ∧ history (processRequest chatFailsAgents emptyOrchestrator "hi"
        (some "c1") "collaborative").1 (some "c1") = []
    ∧ (∀ c ∈ (processRequest chatFailsAgents emptyOrchestrator "hi"
        (some "c1") "collaborative").2.1,
        c.2.role ≠ some "synthesizer") := by
  have h := collaborative_failure_fail_fast chatFailsAgents
    emptyOrchestrator "hi" (some "c1")
    (Or.inl ⟨OErr.agentError "boom", rfl⟩)
  exact ⟨h.1, by rw [h.2.1 (some "c1")]; rfl, h.2.2.2⟩

/-- The exact value (trace and outcome) of each workflow executor in
each of its success cases, shared by the steps/response theorems
below. -/
theorem workflow_success_equations (A : Oracle) (input : String)
    (conv : List Turn) :
    (∀ c, A .chat (leadReq input conv) = Except.ok c →
      c.needsCode = false →
      executeChatFirstWorkflow A input conv
        = ([(.chat, leadReq input conv)],
           Except.ok
             { response := c.response, workflow := "chat-first",
               steps := ["chat"], agents := [("chat", c.metadata)] }))
    ∧ (∀ c co, A .chat (leadReq input conv) = Except.ok c →
      c.needsCode = true →
      A .code (codeAfterChatReq input c) = Except.ok co →
      co.needsValidation = false →
      executeChatFirstWorkflow A input conv
        = ([(.chat, leadReq input conv), (.code, codeAfterChatReq input c)],
           Except.ok
             { response := combineResponses [c, co],
               workflow := "chat-first", steps := ["chat", "code"],
               agents :=
                 [("chat", c.metadata), ("code", co.metadata)] }))
    ∧ (∀ c co r, A .chat (leadReq input conv) = Except.ok c →
      c.needsCode = true →
      A .code (codeAfterChatReq input c) = Except.ok co →
      co.needsValidation = true →
      A .reasoning (validateReq co) = Except.ok r →
      executeChatFirstWorkflow A input conv
        = ([(.chat, leadReq input conv), (.code, codeAfterChatReq input c),
            (.reasoning, validateReq co)],
           Except.ok
             { response := combineResponses [c, co, r],
               workflow := "chat-first",
               steps := ["chat", "code", "reasoning"],
               agents :=
                 [("chat", c.metadata), ("code", co.metadata),
                  ("reasoning", r.metadata)] }))
    ∧ (∀ co r c, A .code (leadReq input conv) = Except.ok co →
      A .reasoning (analyzeReq co) = Except.ok r →
      A .chat (explainReq r) = Except.ok c →
      executeCodeFirstWorkflow A input conv
        = ([(.code, leadReq input conv), (.reasoning, analyzeReq co),
            (.chat, explainReq r)],
           Except.ok
             { response := combineResponses [co, r, c],
               workflow := "code-first",
               steps := ["code", "reasoning", "chat"],
               agents :=
                 [("code", co.metadata), ("reasoning", r.metadata),
                  ("chat", c.metadata)] }))
    ∧ (∀ r co c, A .reasoning (leadReq input conv) = Except.ok r →
      r.needsImplementation = true →
      A .code (implReq input r) = Except.ok co →
      A .chat comprehensiveReq = Except.ok c →
      executeReasoningFirstWorkflow A input conv
        = ([(.reasoning, leadReq input conv), (.code, implReq input r),
            (.chat, comprehensiveReq)],
           Except.ok
             { response := combineResponses [r, co, c],
               workflow := "reasoning-first",
               steps := ["reasoning", "code", "chat"],
               agents :=
                 [("reasoning", r.metadata), ("code", co.metadata),
                  ("chat", c.metadata)] }))
    ∧ (∀ r c, A .reasoning (leadReq input conv) = Except.ok r →
      r.needsImplementation = false →
      A .chat (friendlyReq r) = Except.ok c →
      executeReasoningFirstWorkflow A input conv
        = ([(.reasoning, leadReq input conv), (.chat, friendlyReq r)],
           Except.ok
             { response := combineResponses [r, c],
               workflow := "reasoning-first",
               steps := ["reasoning", "chat"],
               agents :=
                 [("reasoning", r.metadata), ("chat", c.metadata)] }))
    ∧ (∀ c co r s2, A .chat (collabReq input conv "interpreter")
        = Except.ok c →
      A .code (collabReq input conv "implementer") = Except.ok co →
      A .reasoning (collabReq input conv "analyzer") = Except.ok r →
      A .reasoning synthesisReq = Except.ok s2 →
      executeCollaborativeWorkflow A input conv
        = ([(.chat, collabReq input conv "interpreter"),
            (.code, collabReq input conv "implementer"),
            (.reasoning, collabReq input conv "analyzer"),
            (.reasoning, synthesisReq)],
           Except.ok
             { response := s2.response, workflow := "collaborative",
               steps := ["parallel-processing", "synthesis"],
               agents :=
                 [("chat", c.metadata), ("code", co.metadata),
                  ("reasoning", r.metadata),
                  ("synthesis", s2.metadata)] })) := by
  refine ⟨?_, ?_, ?_, ?_, ?_, ?_, ?_⟩
  · intro c h1 h2
    simp [executeChatFirstWorkflow, h1, h2]
  · intro c co h1 h2 h3 h4
    simp [executeChatFirstWorkflow, h1, h2, h3, h4]
  · intro c co r h1 h2 h3 h4 h5
    simp [executeChatFirstWorkflow, h1, h2, h3, h4, h5]
  · intro co r c h1 h2 h3
    simp [executeCodeFirstWorkflow, h1, h2, h3]
  · intro r co c h1 h2 h3 h4
    simp [executeReasoningFirstWorkflow, h1, h2, h3, h4]
  · intro r c h1 h2 h3
    simp [executeReasoningFirstWorkflow, h1, h2, h3]
  · intro c co r s2 h1 h2 h3 h4
    simp [executeCollaborativeWorkflow, h1, h2, h3, h4]

/-- C5: in every workflow's success cases, the `steps` metadata equals,
in order, the agents actually invoked (ghost trace): a chat-first run
whose chat result signals no `needsCode` reports `steps = [chat]` with a
single invocation (and the `needsCode` branches report exactly the
agents that ran); a code-first run always performs Code, Reasoning,
Chat with `steps = [code, reasoning, chat]` and no conditional
skipping; a reasoning-first run reports `[reasoning, code, chat]` when
`needsImplementation` is signalled and `[reasoning, chat]` otherwise;
a collaborative run reports `[parallel-processing, synthesis]` with
exactly four agent invocations. -/
theorem steps_match_invocations (A : Oracle) (input : String)
    (conv : List Turn) :
    (∀ c, A .chat (leadReq input conv) = Except.ok c →
      c.needsCode = false →
      executeChatFirstWorkflow A input conv
        = ([(.chat, leadReq input conv)],
           Except.ok
             { response := c.response, workflow := "chat-first",
               steps := ["chat"], agents := [("chat", c.metadata)] }))
    ∧ (∀ c co, A .chat (leadReq input conv) = Except.ok c →
      c.needsCode = true →
      A .code (codeAfterChatReq input c) = Except.ok co →
      co.needsValidation = false →
      executeChatFirstWorkflow A input conv
        = ([(.chat, leadReq input conv), (.code, codeAfterChatReq input c)],
           Except.ok
             { response := combineResponses [c, co],
               workflow := "chat-first", steps := ["chat", "code"],
               agents :=
                 [("chat", c.metadata), ("code", co.metadata)] }))
    ∧ (∀ c co r, A .chat (leadReq input conv) = Except.ok c →
      c.needsCode = true →
      A .code (codeAfterChatReq input c) = Except.ok co →
      co.needsValidation = true →
      A .reasoning (validateReq co) = Except.ok r →
      executeChatFirstWorkflow A input conv
        = ([(.chat, leadReq input conv), (.code, codeAfterChatReq input c),
            (.reasoning, validateReq co)],
           Except.ok
             { response := combineResponses [c, co, r],
               workflow := "chat-first",
               steps := ["chat", "code", "reasoning"],
               agents :=
                 [("chat", c.metadata), ("code", co.metadata),
                  ("reasoning", r.metadata)] }))
    ∧ (∀ co r c, A .code (leadReq input conv) = Except.ok co →
      A .reasoning (analyzeReq co) = Except.ok r →
      A .chat (explainReq r) = Except.ok c →
      executeCodeFirstWorkflow A input conv
        = ([(.code, leadReq input conv), (.reasoning, analyzeReq co),
            (.chat, explainReq r)],
           Except.ok
             { response := combineResponses [co, r, c],
               workflow := "code-first",
               steps := ["code", "reasoning", "chat"],
               agents :=
                 [("code", co.metadata), ("reasoning", r.metadata),
                  ("chat", c.metadata)] }))
    ∧ (∀ r co c, A .reasoning (leadReq input conv) = Except.ok r →
      r.needsImplementation = true →
      A .code (implReq input r) = Except.ok co →
      A .chat comprehensiveReq = Except.ok c →
      executeReasoningFirstWorkflow A input conv
        = ([(.reasoning, leadReq input conv), (.code, implReq input r),
            (.chat, comprehensiveReq)],
           Except.ok
             { response := combineResponses [r, co, c],
               workflow := "reasoning-first",
               steps := ["reasoning", "code", "chat"],
               agents :=
                 [("reasoning", r.metadata), ("code", co.metadata),
                  ("chat", c.metadata)] }))
    ∧ (∀ r c, A .reasoning (leadReq input conv) = Except.ok r →
      r.needsImplementation = false →
      A .chat (friendlyReq r) = Except.ok c →
      executeReasoningFirstWorkflow A input conv
        = ([(.reasoning, leadReq input conv), (.chat, friendlyReq r)],
           Except.ok
             { response := combineResponses [r, c],
               workflow := "reasoning-first",
               steps := ["reasoning", "chat"],
               agents :=
                 [("reasoning", r.metadata), ("chat", c.metadata)] }))
    ∧ (∀ c co r s2, A .chat (collabReq input conv "interpreter")
        = Except.ok c →
      A .code (collabReq input conv "implementer") = Except.ok co →
      A .reasoning (collabReq input conv "analyzer") = Except.ok r →
      A .reasoning synthesisReq = Except.ok s2 →
      executeCollaborativeWorkflow A input conv
        = ([(.chat, collabReq input conv "interpreter"),
            (.code, collabReq input conv "implementer"),
            (.reasoning, collabReq input conv "analyzer"),
            (.reasoning, synthesisReq)],
           Except.ok
             { response := s2.response, workflow := "collaborative",
               steps := ["parallel-processing", "synthesis"],
               agents :=
                 [("chat", c.metadata), ("code", co.metadata),
                  ("reasoning", r.metadata),
                  ("synthesis", s2.metadata)] })) :=
  workflow_success_equations A input conv

/-- The result `okAgents` returns on every call. -/
def okResult : AgentResult := { response := "ok" }

/-- C5 witness: with the concrete always-ok oracle, the chat-first,
code-first, reasoning-first and collaborative executors report exactly
the steps of the invocations they perform. -/
theorem steps_match_invocations_witness :
    executeChatFirstWorkflow okAgents "hi" []
      = ([(.chat, leadReq "hi" [])],
         Except.ok
           { response := okResult.response, workflow := "chat-first",
             steps := ["chat"], agents := [("chat", okResult.metadata)] })
    ∧ executeCodeFirstWorkflow okAgents "hi" []
      = ([(.code, leadReq "hi" []), (.reasoning, analyzeReq okResult),
          (.chat, explainReq okResult)],
         Except.ok
           { response := combineResponses [okResult, okResult, okResult],
             workflow := "code-first",
             steps := ["code", "reasoning", "chat"],
             agents :=
               [("code", okResult.metadata),
                ("reasoning", okResult.metadata),
                ("chat", okResult.metadata)] })
    ∧ executeReasoningFirstWorkflow okAgents "hi" []
      = ([(.reasoning, leadReq "hi" []), (.chat, friendlyReq okResult)],
         Except.ok
           { response := combineResponses [okResult, okResult],
             workflow := "reasoning-first",
             steps := ["reasoning", "chat"],
             agents :=
               [("reasoning", okResult.metadata),
                ("chat", okResult.metadata)] })
    ∧ executeCollaborativeWorkflow okAgents "hi" []
      = ([(.chat, collabReq "hi" [] "interpreter"),
          (.code, collabReq "hi" [] "implementer"),
          (.reasoning, collabReq "hi" [] "analyzer"),
          (.reasoning, synthesisReq)],
         Except.ok
           { response := okResult.response, workflow := "collaborative",
             steps := ["parallel-processing", "synthesis"],
             agents :=
               [("chat", okResult.metadata), ("code", okResult.metadata),
                ("reasoning", okResult.metadata),
                ("synthesis", okResult.metadata)] }) := by
  refine ⟨?_, ?_, ?_, ?_⟩
  · exact (steps_match_invocations okAgents "hi" []).1 okResult rfl rfl
  · exact (steps_match_invocations okAgents "hi" []).2.2.2.1 okResult
      okResult okResult rfl rfl rfl
  · exact (steps_match_invocations okAgents "hi" []).2.2.2.2.2.1 okResult
      okResult rfl rfl rfl
  · exact (steps_match_invocations okAgents "hi" []).2.2.2.2.2.2 okResult
      okResult okResult okResult rfl rfl rfl rfl

/-- C6: in every success case of the three non-collaborative workflows,
the final response is exactly the ordered `"\n\n"`-joined concatenation
of every executed agent's response string, in execution order — a pure
string operation (`combineResponses`), no model call, with no executed
agent's output dropped. -/
theorem response_is_ordered_join (A : Oracle) (input : String)
    (conv : List Turn) :
    (∀ c, A .chat (leadReq input conv) = Except.ok c →
      c.needsCode = false →
      ∃ out, (executeChatFirstWorkflow A input conv).2 = Except.ok out
        ∧ out.response = String.intercalate "\n\n" [c.response])
    ∧ (∀ c co, A .chat (leadReq input conv) = Except.ok c →
      c.needsCode = true →
      A .code (codeAfterChatReq input c) = Except.ok co →
      co.needsValidation = false →
      ∃ out, (executeChatFirstWorkflow A input conv).2 = Except.ok out
        ∧ out.response
            = String.intercalate "\n\n" [c.response, co.response])
    ∧ (∀ c co r, A .chat (leadReq input conv) = Except.ok c →
      c.needsCode = true →
      A .code (codeAfterChatReq input c) = Except.ok co →
      co.needsValidation = true →
      A .reasoning (validateReq co) = Except.ok r →
      ∃ out, (executeChatFirstWorkflow A input conv).2 = Except.ok out
        ∧ out.response
            = String.intercalate "\n\n"
                [c.response, co.response, r.response])
    ∧ (∀ co r c, A .code (leadReq input conv) = Except.ok co →
      A .reasoning (analyzeReq co) = Except.ok r →
      A .chat (explainReq r) = Except.ok c →
      ∃ out, (executeCodeFirstWorkflow A input conv).2 = Except.ok out
        ∧ out.response
            = String.intercalate "\n\n"
                [co.response, r.response, c.response])
    ∧ (∀ r co c, A .reasoning (leadReq input conv) = Except.ok r →
      r.needsImplementation = true →
      A .code (implReq input r) = Except.ok co →
      A .chat comprehensiveReq = Except.ok c →
      ∃ out, (executeReasoningFirstWorkflow A input conv).2 = Except.ok out
        ∧ out.response
            = String.intercalate "\n\n"
                [r.response, co.response, c.response])
    ∧ (∀ r c, A .reasoning (leadReq input conv) = Except.ok r →
      r.needsImplementation = false →
      A .chat (friendlyReq r) = Except.ok c →
      ∃ out, (executeReasoningFirstWorkflow A input conv).2 = Except.ok out
        ∧ out.response
            = String.intercalate "\n\n" [r.response, c.response]) := by
  refine ⟨?_, ?_, ?_, ?_, ?_, ?_⟩
  · intro c h1 h2
    rw [(workflow_success_equations A input conv).1 c h1 h2]
    exact ⟨_, rfl, rfl⟩
  · intro c co h1 h2 h3 h4
    rw [(workflow_success_equations A input conv).2.1 c co h1 h2 h3 h4]
    exact ⟨_, rfl, rfl⟩
  · intro c co r h1 h2 h3 h4 h5
    rw [(workflow_success_equations A input conv).2.2.1 c co r h1 h2 h3 h4
      h5]
    exact ⟨_, rfl, rfl⟩
  · intro co r c h1 h2 h3
    rw [(workflow_success_equations A input conv).2.2.2.1 co r c h1 h2 h3]
    exact ⟨_, rfl, rfl⟩
  · intro r co c h1 h2 h3 h4
    rw [(workflow_success_equations A input conv).2.2.2.2.1 r co c h1 h2 h3
      h4]
    exact ⟨_, rfl, rfl⟩
  · intro r c h1 h2 h3
    rw [(workflow_success_equations A input conv).2.2.2.2.2.1 r c h1 h2 h3]
    exact ⟨_, rfl, rfl⟩

/-- Concrete oracle for the C6 witness: every agent succeeds and
signals every delegation flag. -/
def eagerAgents : Oracle := fun _ _ =>
  Except.ok
    { response := "E", needsCode := true, codeRequest := some "cr",
      needsValidation := true, code := some "x",
      needsImplementation := true, implementationRequest := some "ir" }

/-- The result `eagerAgents` returns on every call. -/
def eagerResult : AgentResult :=
  { response := "E", needsCode := true, codeRequest := some "cr",
    needsValidation := true, code := some "x",
    needsImplementation := true, implementationRequest := some "ir" }

/-- C6 witness: a concrete three-step chat-first run and a concrete
single-step chat-first run both return exactly the blank-line join of
the executed agents' responses. -/
theorem response_is_ordered_join_witness :
    (∃ out, (executeChatFirstWorkflow eagerAgents "hi" []).2
        = Except.ok out
      ∧ out.response
          = String.intercalate "\n\n"
              [eagerResult.response, eagerResult.response,
               eagerResult.response])
    ∧ (∃ out, (executeChatFirstWorkflow okAgents "hi" []).2 = Except.ok out
      ∧ out.response = String.intercalate "\n\n" [okResult.response]) := by
  constructor
  · exact (response_is_ordered_join eagerAgents "hi" []).2.2.1 eagerResult
      eagerResult eagerResult rfl rfl rfl rfl rfl
  · exact (response_is_ordered_join okAgents "hi" []).1 okResult rfl rfl

end CyberCode
